import Mathlib

/-!
Shallow embedding of the role-management core of this repository
(files src/Conda/rol_management.py and src/Conda/api.py, which duplicate
the class RoleManager).

Database state is modelled explicitly: the users table ue_usuario as a list
of (USR_PORTAL, ID) rows, the membership table ue_usuario_roles as a list of
Grant rows.  The role catalog ue_roles is loaded once into a Python dict
(id to name); the dict is modelled as an association list with last-write-wins
insertion, preserving Python dict semantics (unique keys, insertion order).

Database faults (oracledb.Error / oracledb.IntegrityError raised by a cursor
call) are injected as explicit parameters: the Python code catches them at the
operation boundary and turns them into return values, so each operation is a
total function of the state and the injected fault.
-/

/-- A row of ue21.ue_usuario_roles: surrogate id, role id (FK), user id (FK). -/
structure Grant where
  id : Int
  rol_id : Int
  usr_id : Int
deriving Repr, DecidableEq

/-- The database state visible to the manager: the users table and the
grant (membership) table.  The roles table appears only through the rows
passed to `load_roles_from_db` at construction time. -/
structure DBState where
  users : List (String × Int)
  grants : List Grant
deriving Repr, DecidableEq

/-- A Python dict from role id to role name, as an association list with
unique keys (maintained by `dictInsert`). -/
abbrev RolesDict := List (Int × String)

/-- Python dict assignment d[k] = v: overwrite in place if the key exists,
else append (insertion order preserved). -/
def dictInsert (d : RolesDict) (k : Int) (v : String) : RolesDict :=
  if d.any (fun p => p.1 == k) then
    d.map (fun p => if p.1 == k then (k, v) else p)
  else d ++ [(k, v)]

/-- RoleManager.load_roles_from_db: builds the dict
\x7brow[0]: row[1] for row in cursor.fetchall()\x7d from the fetched
(id, nombre) rows of ue21.ue_roles. -/
def load_roles_from_db (rows : List (Int × String)) : RolesDict :=
  rows.foldl (fun d r => dictInsert d r.1 r.2) []

/-- RoleManager.role_exists: `role_id in self.roles` (dict key membership). -/
def role_exists (roles : RolesDict) (role_id : Int) : Bool :=
  roles.any (fun p => p.1 == role_id)

/-- RoleManager.get_user_id: SELECT ID FROM ue21.ue_usuario WHERE
USR_PORTAL = :usr, fetchone; returns the id of the first matching row or
Python None.  When the query raises oracledb.Error (modelled by
`lookupFault = true`) the except branch also returns None. -/
def get_user_id (db : DBState) (lookupFault : Bool) (user : String) : Option Int :=
  if lookupFault then none
  else (db.users.find? (fun p => p.1 == user)).map (fun p => p.2)

/-- Existence of a grant row for (role_id, usr_id):
SELECT 1 FROM ue21.ue_usuario_roles WHERE rol_id = :rol_id AND
usr_id = :usr_id, fetchone is not None. -/
def has_grant (db : DBState) (role_id usr_id : Int) : Bool :=
  db.grants.any (fun g => g.rol_id == role_id && g.usr_id == usr_id)

/-- Number of grant rows for a (role_id, usr_id) pair. -/
def grant_count (db : DBState) (role_id usr_id : Int) : Nat :=
  (db.grants.filter (fun g => g.rol_id == role_id && g.usr_id == usr_id)).length

/-- SELECT MAX(ID) + 1 FROM ue21.UE_USUARIO_ROLES, then
`max_id_result[0] if max_id_result[0] is not None else 1`: Oracle MAX over an
empty table is NULL, so the next surrogate id is 1 when no grants exist and
max + 1 otherwise. -/
def next_grant_id (db : DBState) : Int :=
  match (db.grants.map Grant.id).max? with
  | none => 1
  | some m => m + 1

/-- The branch taken by RoleManager.check_user_role, identified by the line it
prints; `toBool` below recovers the Python return value. -/
inductive CheckOutcome
  | userNotFound
  | roleNotFound
  | dbError
  | membership (has : Bool)
deriving Repr, DecidableEq

/-- The Python return value of check_user_role for each branch: True exactly
when a membership row was found; every warning/error branch returns False. -/
def CheckOutcome.toBool : CheckOutcome → Bool
  | .membership h => h
  | _ => false

/-- RoleManager.check_user_role.  `lookupFault` injects an oracledb.Error in
get_user_id (whose except branch returns None, so the caller's truthiness
test `if not user_id` sends it down the user-not-found branch);
`membershipFault` injects an oracledb.Error in the membership SELECT, caught
by the outer except which returns False.  The Python truthiness test also
rejects a resolved id of 0. -/
def check_user_role (roles : RolesDict) (db : DBState)
    (lookupFault : Bool) (membershipFault : Bool)
    (user : String) (role_id : Int) : CheckOutcome :=
  match get_user_id db lookupFault user with
  | none => .userNotFound
  | some uid =>
    if uid == 0 then .userNotFound
    else if !(role_exists roles role_id) then .roleNotFound
    else if membershipFault then .dbError
    else .membership (has_grant db role_id uid)

/-- Which oracledb exception the INSERT of grant_role raises, when injected:
an IntegrityError whose message holds ORA-02291 (FK parent not found), any
other IntegrityError, or a generic oracledb.Error. -/
inductive DbFault
  | integrityFK
  | integrityOther
  | generic
deriving Repr, DecidableEq

/-- The branch taken by RoleManager.grant_role, identified by the line it
prints; `toBool` below recovers the Python return value. -/
inductive GrantOutcome
  | userNotFound
  | roleNotFound
  | alreadyGranted
  | success
  | integrityViolationFK
  | integrityViolationOther
  | dbFailure
deriving Repr, DecidableEq

/-- The Python return value of grant_role for each branch: True for both the
fresh-grant and the already-granted branch, False for every failure branch. -/
def GrantOutcome.toBool : GrantOutcome → Bool
  | .success => true
  | .alreadyGranted => true
  | _ => false

/-- RoleManager.grant_role.  Follows the source line by line: resolve the
user (truthiness test, so id 0 behaves like None), check the catalog dict,
check for an existing grant row (idempotency no-op), compute
MAX(ID)+1-or-1, INSERT and commit.  `insertFault` injects an exception at
the INSERT; both except branches roll back the uncommitted insert, so the
returned state is the unchanged input state. -/
def grant_role (roles : RolesDict) (db : DBState)
    (lookupFault : Bool) (insertFault : Option DbFault)
    (user : String) (role_id : Int) : GrantOutcome × DBState :=
  match get_user_id db lookupFault user with
  | none => (.userNotFound, db)
  | some uid =>
    if uid == 0 then (.userNotFound, db)
    else if !(role_exists roles role_id) then (.roleNotFound, db)
    else if has_grant db role_id uid then (.alreadyGranted, db)
    else
      match insertFault with
      | some .integrityFK => (.integrityViolationFK, db)
      | some .integrityOther => (.integrityViolationOther, db)
      | some .generic => (.dbFailure, db)
      | none =>
        (.success,
         { db with grants := db.grants ++ [⟨next_grant_id db, role_id, uid⟩] })

/-- Python tuple comparison on (id, name) pairs, as used by
`sorted(self.roles.items())`: lexicographic, id first, name as tie-break. -/
def pairLe (a b : Int × String) : Prop :=
  a.1 < b.1 ∨ (a.1 = b.1 ∧ a.2 ≤ b.2)

instance : DecidableRel pairLe := fun a b => by
  unfold pairLe
  infer_instance

/-- Insert a pair into a list sorted by `pairLe`, keeping it sorted. -/
def insertPair (x : Int × String) : List (Int × String) → List (Int × String)
  | [] => [x]
  | y :: ys => if pairLe x y then x :: y :: ys else y :: insertPair x ys

/-- Python `sorted` on the dict items, as insertion sort with the tuple
order `pairLe` (the order is linear, so any sorting algorithm yields the
same output list). -/
def sortPairs : List (Int × String) → List (Int × String)
  | [] => []
  | x :: xs => insertPair x (sortPairs xs)

/-- What RoleManager.list_all_roles (the printing method shared by
rol_management.py and the class body of api.py) writes: either the
"No se encontraron roles en la DB" stderr line, or the table of
(id, name) rows in sorted order followed by the total.  The Python method
itself returns None on every path. -/
inductive ListOutcome
  | noRoles
  | listing (pairs : List (Int × String)) (total : Nat)
deriving Repr, DecidableEq

/-- RoleManager.list_all_roles of rol_management.py (and of the class body
of api.py): `if not self.roles` prints the no-roles line, otherwise prints
the rows of sorted(self.roles.items()) and the total. -/
def list_all_roles_cli (roles : RolesDict) : ListOutcome :=
  if roles.isEmpty then .noRoles
  else .listing (sortPairs roles) roles.length

/-- The JSON values the HTTP surface can produce: null, an error object
\x7b"error": msg\x7d, or the roles object \x7b"total": n, "roles": [...]\x7d
whose list entries are \x7b"id": i, "nombre": s\x7d pairs in list order. -/
inductive JsonVal
  | jnull
  | jerror (msg : String)
  | jroles (total : Nat) (roles : List (Int × String))
deriving Repr, DecidableEq

/-- The module-level function list_all_roles of api.py (line 230, defined at
column 0, hence OUTSIDE the class body): returns \x7b"error": ...\x7d when
the dict is empty, else the dict \x7b"total": len, "roles": sorted list\x7d. -/
def list_all_roles_structured (roles : RolesDict) : JsonVal :=
  if roles.isEmpty then .jerror "No se encontraron roles"
  else .jroles (sortPairs roles).length (sortPairs roles)

/-- The return value of the list_all_roles METHOD that the api.py class
RoleManager actually has (lines 124 to 138, the printing one): Python None
on every path, since the structured replacement at line 230 sits outside
the class and never rebinds the method. -/
def list_all_roles_method_return (_roles : RolesDict) : Option JsonVal :=
  none

/-- Flask jsonify of the value returned by the called method: jsonify(None)
serialises to JSON null. -/
def jsonify : Option JsonVal → JsonVal
  | none => .jnull
  | some v => v

/-- The GET /roles handler get_all_roles of api.py: if the global
role_manager is still None (engine never constructed), respond 500 with an
error object; otherwise respond 200 with jsonify of what
role_manager.list_all_roles() returns.  The engine is represented by its
loaded roles dict. -/
def get_all_roles (mgr : Option RolesDict) : JsonVal × Nat :=
  match mgr with
  | none => (.jerror "El servidor no pudo conectarse a la base de datos", 500)
  | some roles => (jsonify (list_all_roles_method_return roles), 200)

/-! Helper lemmas shared by the claim theorems. -/

lemma pairLe_total (a b : Int × String) : pairLe a b ∨ pairLe b a := by
  unfold pairLe
  rcases lt_trichotomy a.1 b.1 with h | h | h
  · exact Or.inl (Or.inl h)
  · rcases le_total a.2 b.2 with h2 | h2
    · exact Or.inl (Or.inr ⟨h, h2⟩)
    · exact Or.inr (Or.inr ⟨h.symm, h2⟩)
  · exact Or.inr (Or.inl h)

lemma pairLe_trans {a b c : Int × String} (h1 : pairLe a b) (h2 : pairLe b c) :
    pairLe a c := by
  unfold pairLe at h1 h2 ⊢
  rcases h1 with h1 | ⟨e1, s1⟩
  · rcases h2 with h2 | ⟨e2, s2⟩
    · exact Or.inl (h1.trans h2)
    · exact Or.inl (e2 ▸ h1)
  · rcases h2 with h2 | ⟨e2, s2⟩
    · exact Or.inl (e1 ▸ h2)
    · exact Or.inr ⟨e1.trans e2, s1.trans s2⟩

lemma insertPair_perm (x : Int × String) (l : List (Int × String)) :
    List.Perm (insertPair x l) (x :: l) := by
  induction l with
  | nil => simp [insertPair]
  | cons y ys ih =>
    by_cases h : pairLe x y
    · simp [insertPair, h]
    · simp only [insertPair, if_neg h]
      exact (ih.cons y).trans (List.Perm.swap x y ys)

lemma insertPair_pairwise (x : Int × String) {l : List (Int × String)}
    (h : l.Pairwise pairLe) : (insertPair x l).Pairwise pairLe := by
  induction l with
  | nil => simp [insertPair]
  | cons y ys ih =>
    rcases List.pairwise_cons.mp h with ⟨hy, hys⟩
    by_cases hxy : pairLe x y
    · simp only [insertPair, if_pos hxy]
      refine List.pairwise_cons.mpr ⟨?_, h⟩
      intro z hz
      rcases List.mem_cons.mp hz with rfl | hz
      · exact hxy
      · exact pairLe_trans hxy (hy z hz)
    · simp only [insertPair, if_neg hxy]
      refine List.pairwise_cons.mpr ⟨?_, ih hys⟩
      intro z hz
      rcases List.mem_cons.mp ((insertPair_perm x ys).mem_iff.mp hz) with heq | hz
      · rw [heq]
        exact (pairLe_total x y).resolve_left hxy
      · exact hy z hz

lemma sortPairs_pairwise (l : List (Int × String)) : (sortPairs l).Pairwise pairLe := by
  induction l with
  | nil => simp [sortPairs]
  | cons x xs ih => exact insertPair_pairwise x ih

lemma sortPairs_perm (l : List (Int × String)) : List.Perm (sortPairs l) l := by
  induction l with
  | nil => simp [sortPairs]
  | cons x xs ih => exact (insertPair_perm x (sortPairs xs)).trans (ih.cons x)

lemma grant_count_eq_zero {db : DBState} {r u : Int}
    (h : has_grant db r u = false) : grant_count db r u = 0 := by
  unfold has_grant at h
  unfold grant_count
  rw [List.length_eq_zero, List.filter_eq_nil_iff]
  intro g hgm
  simpa using (List.any_eq_false.mp h) g hgm

lemma grant_role_fresh (roles : RolesDict) (db : DBState) (user : String)
    (uid role_id : Int)
    (hu : get_user_id db false user = some uid) (h0 : uid ≠ 0)
    (hr : role_exists roles role_id = true)
    (hg : has_grant db role_id uid = false) :
    grant_role roles db false none user role_id =
      (GrantOutcome.success,
       { db with grants := db.grants ++ [⟨next_grant_id db, role_id, uid⟩] }) := by
  unfold grant_role
  rw [hu]
  simp [h0, hr, hg]

lemma grant_role_already (roles : RolesDict) (db : DBState) (user : String)
    (uid role_id : Int)
    (hu : get_user_id db false user = some uid) (h0 : uid ≠ 0)
    (hr : role_exists roles role_id = true)
    (hg : has_grant db role_id uid = true) :
    grant_role roles db false none user role_id = (GrantOutcome.alreadyGranted, db) := by
  unfold grant_role
  rw [hu]
  simp [h0, hr, hg]

lemma next_grant_id_eq (db : DBState) :
    next_grant_id db
      = (((db.grants.map Grant.id).max?).map (fun m => m + 1)).getD 1 := by
  unfold next_grant_id
  cases h : (db.grants.map Grant.id).max? <;> simp [h]

/-- Claim C1 (amended): starting from a state with no grant row for the pair,
a user resolving to a nonzero internal id and a role present in the catalog,
and no storage fault, the first GrantRole call takes the success branch, the
second the already-granted branch, the second call leaves the state of the
first untouched, and exactly one grant row for the pair exists afterward. -/
theorem grant_role_idempotent (roles : RolesDict) (db : DBState)
    (user : String) (uid role_id : Int)
    (hu : get_user_id db false user = some uid) (h0 : uid ≠ 0)
    (hr : role_exists roles role_id = true)
    (hg : has_grant db role_id uid = false) :
    (grant_role roles db false none user role_id).1 = GrantOutcome.success ∧
    (grant_role roles (grant_role roles db false none user role_id).2
        false none user role_id).1 = GrantOutcome.alreadyGranted ∧
    (grant_role roles (grant_role roles db false none user role_id).2
        false none user role_id).2
      = (grant_role roles db false none user role_id).2 ∧
    grant_count (grant_role roles db false none user role_id).2 role_id uid = 1 := by
  have h1 := grant_role_fresh roles db user uid role_id hu h0 hr hg
  have hu1 : get_user_id
      { db with grants := db.grants ++ [⟨next_grant_id db, role_id, uid⟩] }
      false user = some uid := hu
  have hg1 : has_grant
      { db with grants := db.grants ++ [⟨next_grant_id db, role_id, uid⟩] }
      role_id uid = true := by
    unfold has_grant
    simp [List.any_append]
  have h2 := grant_role_already roles
    { db with grants := db.grants ++ [⟨next_grant_id db, role_id, uid⟩] }
    user uid role_id hu1 h0 hr hg1
  have hc0 : grant_count db role_id uid = 0 := grant_count_eq_zero hg
  unfold grant_count at hc0
  have hc1 : grant_count
      { db with grants := db.grants ++ [⟨next_grant_id db, role_id, uid⟩] }
      role_id uid = 1 := by
    unfold grant_count
    simp [List.filter_append, hc0]
  rw [h1]
  exact ⟨rfl, by rw [h2], by rw [h2], hc1⟩

/-- Witness for C1 at a concrete state: alice has id 42, role 5 is in the
catalog, the grant table starts empty. -/
theorem grant_role_idempotent_witness :
    (grant_role (load_roles_from_db [(5, "Admin")]) ⟨[("alice", 42)], []⟩
        false none "alice" 5).1 = GrantOutcome.success ∧
    (grant_role (load_roles_from_db [(5, "Admin")])
        (grant_role (load_roles_from_db [(5, "Admin")]) ⟨[("alice", 42)], []⟩
          false none "alice" 5).2
        false none "alice" 5).1 = GrantOutcome.alreadyGranted ∧
    (grant_role (load_roles_from_db [(5, "Admin")])
        (grant_role (load_roles_from_db [(5, "Admin")]) ⟨[("alice", 42)], []⟩
          false none "alice" 5).2
        false none "alice" 5).2
      = (grant_role (load_roles_from_db [(5, "Admin")]) ⟨[("alice", 42)], []⟩
          false none "alice" 5).2 ∧
    grant_count (grant_role (load_roles_from_db [(5, "Admin")]) ⟨[("alice", 42)], []⟩
        false none "alice" 5).2 5 42 = 1 :=
  grant_role_idempotent (load_roles_from_db [(5, "Admin")]) ⟨[("alice", 42)], []⟩
    "alice" 42 5 (by decide) (by decide) (by decide) (by decide)

/-- Counterexample to C1 as stated: alice has an existing internal id (42)
and role 5 is in the catalog, but a grant row for the pair already exists,
so the FIRST call takes the already-granted branch, not the success branch. -/
theorem grant_role_twice_counterexample :
    get_user_id ⟨[("alice", 42)], [⟨1, 5, 42⟩]⟩ false "alice" = some 42 ∧
    role_exists (load_roles_from_db [(5, "Admin")]) 5 = true ∧
    (grant_role (load_roles_from_db [(5, "Admin")]) ⟨[("alice", 42)], [⟨1, 5, 42⟩]⟩
        false none "alice" 5).1 ≠ GrantOutcome.success := by
  decide

/-- Claim C2 (amended): a fresh grant for a user resolving to a NONZERO
internal id inserts exactly one row carrying that user id, the role id and
the surrogate id max-plus-one (1 on an empty grant table), commits it
(the returned state holds the row), and takes the success branch. -/
theorem grant_role_inserts_next_id (roles : RolesDict) (db : DBState)
    (user : String) (uid role_id : Int)
    (hu : get_user_id db false user = some uid) (h0 : uid ≠ 0)
    (hr : role_exists roles role_id = true)
    (hg : has_grant db role_id uid = false) :
    (grant_role roles db false none user role_id).1 = GrantOutcome.success ∧
    (grant_role roles db false none user role_id).2.grants
      = db.grants
        ++ [⟨(((db.grants.map Grant.id).max?).map (fun m => m + 1)).getD 1,
             role_id, uid⟩] ∧
    (grant_role roles db false none user role_id).2.grants.length
      = db.grants.length + 1 ∧
    (grant_role roles db false none user role_id).2.users = db.users := by
  have h1 := grant_role_fresh roles db user uid role_id hu h0 hr hg
  rw [h1]
  refine ⟨rfl, ?_, by simp, rfl⟩
  show db.grants ++ [⟨next_grant_id db, role_id, uid⟩] = _
  rw [next_grant_id_eq]

/-- Witness for C2: alice resolves to 42, role 5 exists, grant table holds an
unrelated row with id 7, so the inserted row gets id 8. -/
theorem grant_role_inserts_next_id_witness :
    (grant_role (load_roles_from_db [(5, "Admin")]) ⟨[("alice", 42)], [⟨7, 5, 99⟩]⟩
        false none "alice" 5).1 = GrantOutcome.success ∧
    (grant_role (load_roles_from_db [(5, "Admin")]) ⟨[("alice", 42)], [⟨7, 5, 99⟩]⟩
        false none "alice" 5).2.grants
      = [⟨7, 5, 99⟩]
        ++ [⟨((([⟨7, 5, 99⟩] : List Grant).map Grant.id).max?.map (fun m => m + 1)).getD 1,
             5, 42⟩] ∧
    (grant_role (load_roles_from_db [(5, "Admin")]) ⟨[("alice", 42)], [⟨7, 5, 99⟩]⟩
        false none "alice" 5).2.grants.length
      = ([⟨7, 5, 99⟩] : List Grant).length + 1 ∧
    (grant_role (load_roles_from_db [(5, "Admin")]) ⟨[("alice", 42)], [⟨7, 5, 99⟩]⟩
        false none "alice" 5).2.users = [("alice", 42)] :=
  grant_role_inserts_next_id (load_roles_from_db [(5, "Admin")])
    ⟨[("alice", 42)], [⟨7, 5, 99⟩]⟩ "alice" 42 5
    (by decide) (by decide) (by decide) (by decide)

/-- Counterexample to C2 as stated: a user row ("zero", 0) resolves to
internal id 0, role 5 is in the catalog and no grant row exists, yet
grant_role takes the user-not-found branch and inserts nothing, because the
resolved id is tested for truthiness. -/
theorem grant_role_resolved_zero_counterexample :
    get_user_id ⟨[("zero", 0)], []⟩ false "zero" = some 0 ∧
    role_exists (load_roles_from_db [(5, "Admin")]) 5 = true ∧
    has_grant ⟨[("zero", 0)], []⟩ 5 0 = false ∧
    grant_role (load_roles_from_db [(5, "Admin")]) ⟨[("zero", 0)], []⟩
        false none "zero" 5
      = (GrantOutcome.userNotFound, ⟨[("zero", 0)], []⟩) := by
  decide

/-- Claim C3 (code bug): with a constructed engine, GET /roles responds
200 with JSON null, because role_manager.list_all_roles() resolves to the
printing class method (which returns Python None) while the structured
list_all_roles of api.py line 230 sits at module level, outside the class;
null is not of the claimed total/roles shape.  The structured function the
code documents as the intended method does produce that shape, and the
500 error path for an unconstructed engine behaves as claimed. -/
theorem get_all_roles_shape_bug :
    get_all_roles (some (load_roles_from_db [(1, "Admin"), (2, "Viewer")]))
      = (JsonVal.jnull, 200) ∧
    (∀ (total : Nat) (rs : List (Int × String)),
      JsonVal.jnull ≠ JsonVal.jroles total rs) ∧
    get_all_roles none
      = (JsonVal.jerror "El servidor no pudo conectarse a la base de datos", 500) ∧
    list_all_roles_structured (load_roles_from_db [(1, "Admin"), (2, "Viewer")])
      = JsonVal.jroles 2 [(1, "Admin"), (2, "Viewer")] := by
  refine ⟨by decide, ?_, by decide, by decide⟩
  intro total rs h
  exact JsonVal.noConfusion h

/-- Claim C4: when the catalog check passes, no grant row exists, and the
INSERT raises the foreign-key IntegrityError (ORA-02291), grant_role takes
the FK-violation branch, which is distinct from the generic-failure and
other-integrity branches, and returns the rolled-back (unchanged) state. -/
theorem grant_role_fk_rollback (roles : RolesDict) (db : DBState)
    (user : String) (uid role_id : Int)
    (hu : get_user_id db false user = some uid) (h0 : uid ≠ 0)
    (hr : role_exists roles role_id = true)
    (hg : has_grant db role_id uid = false) :
    grant_role roles db false (some DbFault.integrityFK) user role_id
      = (GrantOutcome.integrityViolationFK, db) ∧
    GrantOutcome.integrityViolationFK ≠ GrantOutcome.dbFailure ∧
    GrantOutcome.integrityViolationFK ≠ GrantOutcome.integrityViolationOther ∧
    (grant_role roles db false (some DbFault.integrityFK) user role_id).2.grants.length
      = db.grants.length := by
  have h1 : grant_role roles db false (some DbFault.integrityFK) user role_id
      = (GrantOutcome.integrityViolationFK, db) := by
    unfold grant_role
    rw [hu]
    simp [h0, hr, hg]
  exact ⟨h1, by decide, by decide, by rw [h1]⟩

/-- Witness for C4: alice resolves to 42, role 5 is in the loaded catalog,
no grant row exists, and the INSERT is rejected by the FK constraint. -/
theorem grant_role_fk_rollback_witness :
    grant_role (load_roles_from_db [(5, "Admin")]) ⟨[("alice", 42)], [⟨3, 1, 8⟩]⟩
        false (some DbFault.integrityFK) "alice" 5
      = (GrantOutcome.integrityViolationFK, ⟨[("alice", 42)], [⟨3, 1, 8⟩]⟩) ∧
    GrantOutcome.integrityViolationFK ≠ GrantOutcome.dbFailure ∧
    GrantOutcome.integrityViolationFK ≠ GrantOutcome.integrityViolationOther ∧
    (grant_role (load_roles_from_db [(5, "Admin")]) ⟨[("alice", 42)], [⟨3, 1, 8⟩]⟩
        false (some DbFault.integrityFK) "alice" 5).2.grants.length
      = ([⟨3, 1, 8⟩] : List Grant).length :=
  grant_role_fk_rollback (load_roles_from_db [(5, "Admin")])
    ⟨[("alice", 42)], [⟨3, 1, 8⟩]⟩ "alice" 42 5
    (by decide) (by decide) (by decide) (by decide)

/-- Claim C5 (amended): for a role id absent from the catalog and a user
resolving to a NONZERO internal id, check_user_role and grant_role both take
the role-not-found branch and leave the state untouched. -/
theorem role_not_found_no_mutation (roles : RolesDict) (db : DBState)
    (user : String) (uid role_id : Int)
    (hu : get_user_id db false user = some uid) (h0 : uid ≠ 0)
    (hr : role_exists roles role_id = false) :
    check_user_role roles db false false user role_id = CheckOutcome.roleNotFound ∧
    grant_role roles db false none user role_id = (GrantOutcome.roleNotFound, db) := by
  constructor
  · unfold check_user_role
    rw [hu]
    simp [h0, hr]
  · unfold grant_role
    rw [hu]
    simp [h0, hr]

/-- Witness for C5: bob resolves to 7 and role 9 is not in the catalog. -/
theorem role_not_found_no_mutation_witness :
    check_user_role (load_roles_from_db [(1, "Admin")]) ⟨[("bob", 7)], [⟨1, 1, 7⟩]⟩
        false false "bob" 9 = CheckOutcome.roleNotFound ∧
    grant_role (load_roles_from_db [(1, "Admin")]) ⟨[("bob", 7)], [⟨1, 1, 7⟩]⟩
        false none "bob" 9
      = (GrantOutcome.roleNotFound, ⟨[("bob", 7)], [⟨1, 1, 7⟩]⟩) :=
  role_not_found_no_mutation (load_roles_from_db [(1, "Admin")])
    ⟨[("bob", 7)], [⟨1, 1, 7⟩]⟩ "bob" 7 9 (by decide) (by decide) (by decide)

/-- Counterexample to C5 as stated: the user row ("ghost", 0) resolves to an
existing user, role 7 is absent from the catalog, yet both operations take
the user-not-found branch (the truthiness test fires first), not the
role-not-found branch the claim requires. -/
theorem role_not_found_user_zero_counterexample :
    get_user_id ⟨[("ghost", 0)], []⟩ false "ghost" = some 0 ∧
    role_exists (load_roles_from_db [(1, "Admin")]) 7 = false ∧
    check_user_role (load_roles_from_db [(1, "Admin")]) ⟨[("ghost", 0)], []⟩
        false false "ghost" 7 = CheckOutcome.userNotFound ∧
    CheckOutcome.userNotFound ≠ CheckOutcome.roleNotFound ∧
    (grant_role (load_roles_from_db [(1, "Admin")]) ⟨[("ghost", 0)], []⟩
        false none "ghost" 7).1 = GrantOutcome.userNotFound ∧
    GrantOutcome.userNotFound ≠ GrantOutcome.roleNotFound := by
  decide

/-- Claim C6: for a login name with no matching user row, check_user_role and
grant_role both take the user-not-found branch and leave the state untouched,
whatever fault the later stages would have raised. -/
theorem user_not_found_no_mutation (roles : RolesDict) (db : DBState)
    (user : String) (role_id : Int) (membershipFault : Bool)
    (insertFault : Option DbFault)
    (hu : get_user_id db false user = none) :
    check_user_role roles db false membershipFault user role_id
      = CheckOutcome.userNotFound ∧
    grant_role roles db false insertFault user role_id
      = (GrantOutcome.userNotFound, db) := by
  constructor
  · unfold check_user_role
    rw [hu]
  · unfold grant_role
    rw [hu]

/-- Witness for C6: no user row matches "nobody". -/
theorem user_not_found_no_mutation_witness :
    check_user_role (load_roles_from_db [(1, "Admin")]) ⟨[("alice", 42)], []⟩
        false false "nobody" 1 = CheckOutcome.userNotFound ∧
    grant_role (load_roles_from_db [(1, "Admin")]) ⟨[("alice", 42)], []⟩
        false none "nobody" 1
      = (GrantOutcome.userNotFound, ⟨[("alice", 42)], []⟩) :=
  user_not_found_no_mutation (load_roles_from_db [(1, "Admin")])
    ⟨[("alice", 42)], []⟩ "nobody" 1 false none (by decide)

/-- Claim C7: the structured listing sorts the loaded catalog ascending by
id whatever the source row order: the spec's example evaluates as claimed,
every loaded catalog lists pairwise-ascending ids, the listed pairs are
exactly the catalog's pairs, and the printing listing shows the same order. -/
theorem list_roles_sorted_ascending :
    list_all_roles_structured (load_roles_from_db [(2, "Admin"), (1, "Viewer")])
      = JsonVal.jroles 2 [(1, "Viewer"), (2, "Admin")] ∧
    (∀ rows : List (Int × String),
      (sortPairs (load_roles_from_db rows)).Pairwise (fun a b => a.1 ≤ b.1)) ∧
    (∀ rows : List (Int × String),
      List.Perm (sortPairs (load_roles_from_db rows)) (load_roles_from_db rows)) ∧
    list_all_roles_cli (load_roles_from_db [(2, "Admin"), (1, "Viewer")])
      = ListOutcome.listing [(1, "Viewer"), (2, "Admin")] 2 := by
  refine ⟨by decide, ?_, ?_, by decide⟩
  · intro rows
    refine (sortPairs_pairwise _).imp ?_
    intro a b hab
    unfold pairLe at hab
    rcases hab with h | ⟨h, _⟩
    · exact le_of_lt h
    · exact le_of_eq h
  · intro rows
    exact sortPairs_perm _

/-- Claim C8: an empty catalog makes the printing listing take the distinct
no-roles branch and the structured listing return the error object, both
different from an empty success listing. -/
theorem list_roles_empty_catalog :
    list_all_roles_cli (load_roles_from_db []) = ListOutcome.noRoles ∧
    (∀ (pairs : List (Int × String)) (total : Nat),
      ListOutcome.noRoles ≠ ListOutcome.listing pairs total) ∧
    list_all_roles_structured (load_roles_from_db [])
      = JsonVal.jerror "No se encontraron roles" ∧
    (∀ (total : Nat) (rs : List (Int × String)),
      JsonVal.jerror "No se encontraron roles" ≠ JsonVal.jroles total rs) := by
  refine ⟨by decide, ?_, by decide, ?_⟩
  · intro pairs total h
    exact ListOutcome.noConfusion h
  · intro total rs h
    exact JsonVal.noConfusion h

/-- Claim C9: a user row whose internal id is 0 makes both operations take
the user-not-found branch, because the resolved id is tested for Python
truthiness rather than for absence. -/
theorem user_id_zero_treated_not_found (roles : RolesDict) (db : DBState)
    (user : String) (role_id : Int)
    (hu : get_user_id db false user = some 0) :
    check_user_role roles db false false user role_id = CheckOutcome.userNotFound ∧
    grant_role roles db false none user role_id
      = (GrantOutcome.userNotFound, db) := by
  constructor
  · unfold check_user_role
    rw [hu]
    simp
  · unfold grant_role
    rw [hu]
    simp

/-- Witness for C9: the user row ("zed", 0) exists with internal id 0. -/
theorem user_id_zero_treated_not_found_witness :
    check_user_role (load_roles_from_db [(1, "Admin")]) ⟨[("zed", 0)], []⟩
        false false "zed" 1 = CheckOutcome.userNotFound ∧
    grant_role (load_roles_from_db [(1, "Admin")]) ⟨[("zed", 0)], []⟩
        false none "zed" 1
      = (GrantOutcome.userNotFound, ⟨[("zed", 0)], []⟩) :=
  user_id_zero_treated_not_found (load_roles_from_db [(1, "Admin")])
    ⟨[("zed", 0)], []⟩ "zed" 1 (by decide)

/-- Claim C10: a database error in the membership query, or in the user
resolution, makes check_user_role return False, the same Python value a
genuine negative membership answer yields, and no exception escapes (the
embedding is a total function, mirroring the except clauses); the last
conjunct evaluates a genuine fault-free negative answer to the same False. -/
theorem check_db_error_returns_false :
    (∀ (roles : RolesDict) (db : DBState) (lookupFault : Bool)
        (user : String) (role_id : Int),
      (check_user_role roles db lookupFault true user role_id).toBool = false) ∧
    (∀ (roles : RolesDict) (db : DBState) (membershipFault : Bool)
        (user : String) (role_id : Int),
      (check_user_role roles db true membershipFault user role_id).toBool = false) ∧
    (check_user_role (load_roles_from_db [(1, "Admin")]) ⟨[("alice", 42)], []⟩
        false false "alice" 1).toBool = false := by
  refine ⟨?_, ?_, by decide⟩
  · intro roles db lookupFault user role_id
    unfold check_user_role
    cases h : get_user_id db lookupFault user with
    | none => rfl
    | some uid =>
      by_cases h0 : (uid == 0) = true
      · simp [h0, CheckOutcome.toBool]
      · by_cases hr : role_exists roles role_id
        · simp [h0, hr, CheckOutcome.toBool]
        · simp [h0, hr, CheckOutcome.toBool]
  · intro roles db membershipFault user role_id
    rfl
